import Mathlib

/-!
Verification of the assessment aggregate lifecycle and result-computation
logic of the retail-safety-scorecard repository, as a shallow embedding in
Lean 4.

The database (three tables: assessments, assessment_questions,
question_images) is modelled as lists of rows; the remote query/insert
calls issued by the TypeScript source are modelled as pure functions on
that state.  Remote calls that a claim exercises in their failure branch
take an explicit Bool oracle telling whether the remote call succeeded.
Each definition mirrors one function of the source and is named after it.
-/

namespace Scorecard

/-- Embedding of the answer column values: the string enum
    {"yes", "no", "n/a"}.  An unanswered question has answer null,
    modelled as none at use sites. -/
inductive Answer where
  | yes
  | no
  | na
deriving DecidableEq, Repr

/-- One row of the assessments table
    (id, user_id, store_name, date, completed, created_at). -/
structure AssessmentRow where
  id : String
  user_id : String
  store_name : String
  date : String
  completed : Bool
  created_at : Nat
deriving DecidableEq, Repr

/-- One row of the assessment_questions table. -/
structure QuestionRow where
  id : String
  assessment_id : String
  question_number : Nat
  question_text : String
  answer : Option Answer
  comment : Option String
deriving DecidableEq, Repr

/-- One row of the question_images table. -/
structure ImageRow where
  question_id : String
  image_url : String
deriving DecidableEq, Repr

/-- The persistent store: the three tables used by the assessment
    feature. -/
structure Db where
  assessments : List AssessmentRow
  questions : List QuestionRow
  images : List ImageRow
deriving DecidableEq, Repr

/-- A question hydrated with its evidence-image URL list, as produced by
    the fetch/load paths ({ ...question, images }). -/
structure QuestionWithImages extends QuestionRow where
  images : List String
deriving DecidableEq, Repr

/-- An assessment hydrated with its questions
    ({ ...assessment, questions }). -/
structure AssessmentWithQuestions extends AssessmentRow where
  questions : List QuestionWithImages
deriving DecidableEq, Repr

/-- The AssessmentResult record returned by the result calculators. -/
structure AssessmentResult where
  totalQuestions : Nat
  applicableQuestions : Nat
  yesAnswers : Nat
  percentage : Nat
deriving DecidableEq, Repr

/-- Embedding of Math.round over the nonnegative rational num/den:
    Math.round(x) = floor(x + 1/2), so round(num/den) =
    floor((2*num + den) / (2*den)) computed with Nat division. -/
def mathRound (num den : Nat) : Nat :=
  (2 * num + den) / (2 * den)

/-- Embedding of calculateAssessmentResults from
    src/features/assessment/utils.ts (lines 6-25).  Applicable counts
    every question whose answer is not n/a, which includes unanswered
    questions. -/
def calculateAssessmentResults (assessment : Option AssessmentWithQuestions) :
    AssessmentResult :=
  match assessment with
  | none => { totalQuestions := 0, applicableQuestions := 0, yesAnswers := 0, percentage := 0 }
  | some a =>
    let totalQuestions := a.questions.length
    let applicableQuestions := (a.questions.filter (fun q => q.answer ≠ some Answer.na)).length
    let yesAnswers := (a.questions.filter (fun q => q.answer = some Answer.yes)).length
    let percentage := if applicableQuestions > 0 then mathRound (yesAnswers * 100) applicableQuestions else 0
    { totalQuestions := totalQuestions,
      applicableQuestions := applicableQuestions,
      yesAnswers := yesAnswers,
      percentage := percentage }

/-- Embedding of the inline calculateResults of the first
    AssessmentContext.tsx provider variant (lines 296-313).  It returns
    null when no assessment is loaded, and its applicable count excludes
    both n/a and null answers. -/
def calculateResults (currentAssessment : Option AssessmentWithQuestions) :
    Option AssessmentResult :=
  match currentAssessment with
  | none => none
  | some a =>
    let totalQuestions := a.questions.length
    let applicableQuestions :=
      (a.questions.filter (fun q => q.answer ≠ some Answer.na ∧ q.answer ≠ none)).length
    let yesAnswers := (a.questions.filter (fun q => q.answer = some Answer.yes)).length
    let percentage := if applicableQuestions > 0 then mathRound (yesAnswers * 100) applicableQuestions else 0
    some { totalQuestions := totalQuestions,
           applicableQuestions := applicableQuestions,
           yesAnswers := yesAnswers,
           percentage := percentage }

/-- Embedding of the calculateResults variant of src/unnamed/part_009
    (lines 286-309): same applicable rule as utils.ts, but a missing
    current assessment yields the all-zero record instead of null. -/
def calculateResults_part009 (currentAssessment : Option AssessmentWithQuestions) :
    AssessmentResult :=
  match currentAssessment with
  | none => { totalQuestions := 0, applicableQuestions := 0, yesAnswers := 0, percentage := 0 }
  | some a =>
    let totalQuestions := a.questions.length
    let applicableQuestions := (a.questions.filter (fun q => q.answer ≠ some Answer.na)).length
    let yesAnswers := (a.questions.filter (fun q => q.answer = some Answer.yes)).length
    let percentage := if applicableQuestions > 0 then mathRound (yesAnswers * 100) applicableQuestions else 0
    { totalQuestions := totalQuestions,
      applicableQuestions := applicableQuestions,
      yesAnswers := yesAnswers,
      percentage := percentage }

/-- Specification-side count: questions whose answer is Yes or No
    (the spec rule for applicable; compared against the code above). -/
def countYesNo (qs : List QuestionWithImages) : Nat :=
  (qs.filter (fun q => q.answer = some Answer.yes ∨ q.answer = some Answer.no)).length

/-- Specification-side count of unanswered questions. -/
def countUnanswered (qs : List QuestionWithImages) : Nat :=
  (qs.filter (fun q => q.answer = none)).length

/-- Rows of assessment_questions belonging to one assessment, in table
    order (the plain select ... eq assessment_id of api.ts). -/
def Db.questionsOf (db : Db) (assessmentId : String) : List QuestionRow :=
  db.questions.filter (fun q => q.assessment_id = assessmentId)

/-- Image URLs recorded for one question (select image_url from
    question_images where question_id = ...). -/
def Db.imagesOf (db : Db) (questionId : String) : List String :=
  (db.images.filter (fun i => i.question_id = questionId)).map (fun i => i.image_url)

/-- Hydration step shared by the fetch and load paths:
    { ...question, images }. -/
def hydrateQuestion (db : Db) (q : QuestionRow) : QuestionWithImages :=
  { toQuestionRow := q, images := db.imagesOf q.id }

/-- Embedding of the PostgREST .single() modifier: the query succeeds
    exactly when it returns one row. -/
def selectSingle {α : Type} (rows : List α) : Option α :=
  match rows with
  | [x] => some x
  | _ => none

/-- Embedding of loadAssessmentById from src/features/assessment/api.ts
    (lines 192-281).  The query filters on the assessment id only: the
    function receives no requesting-user identity and applies no
    ownership condition. -/
def loadAssessmentById (db : Db) (assessmentId : String) :
    Option AssessmentWithQuestions :=
  match selectSingle (db.assessments.filter (fun a => a.id = assessmentId)) with
  | none => none
  | some assessmentData =>
    let questionsData := db.questionsOf assessmentId
    some { toAssessmentRow := assessmentData,
           questions := questionsData.map (hydrateQuestion db) }

/-- Sort key used by .order(created_at, descending) on the assessments
    table: x comes before y when x was created no earlier than y. -/
def byRecentFirst (x y : AssessmentRow) : Prop := y.created_at ≤ x.created_at

instance : DecidableRel byRecentFirst := fun x y => Nat.decLe y.created_at x.created_at

instance : IsTotal AssessmentRow byRecentFirst := ⟨fun a b => Nat.le_total b.created_at a.created_at⟩

instance : IsTrans AssessmentRow byRecentFirst := ⟨fun _ _ _ hab hbc => Nat.le_trans hbc hab⟩

/-- Embedding of .order(created_at, descending). -/
def orderByCreatedDesc (rows : List AssessmentRow) : List AssessmentRow :=
  List.insertionSort byRecentFirst rows

/-- Loop body of fetchAssessmentsForUser from
    src/features/assessment/api.ts (lines 118-181): fetches the questions
    of one assessment, skips the assessment (continue) when no questions
    are found, and otherwise hydrates it. -/
def fetchHydrate (db : Db) (assessment : AssessmentRow) :
    Option AssessmentWithQuestions :=
  let questionsData := db.questionsOf assessment.id
  if questionsData.isEmpty then none
  else some { toAssessmentRow := assessment,
              questions := questionsData.map (hydrateQuestion db) }

/-- Embedding of fetchAssessmentsForUser from
    src/features/assessment/api.ts (lines 95-189).  The loop skips
    (continue) any assessment whose question query returns no rows, so
    such an assessment is absent from the returned list. -/
def fetchAssessmentsForUser (db : Db) (userId : String) :
    List AssessmentWithQuestions :=
  let assessmentsData := orderByCreatedDesc (db.assessments.filter (fun a => a.user_id = userId))
  assessmentsData.filterMap (fetchHydrate db)

/-- Client-side provider state: the currently edited assessment and the
    saved-assessments list. -/
structure ClientState where
  currentAssessment : Option AssessmentWithQuestions
  savedAssessments : List AssessmentWithQuestions
deriving DecidableEq, Repr

/-- Embedding of updateQuestionInDb from src/features/assessment/api.ts
    (lines 284-310): update assessment_questions set answer, comment
    where id = questionId.  The writeOk oracle tells whether the remote
    update succeeded; on failure the table is unchanged and false is
    returned. -/
def updateQuestionInDb (db : Db) (writeOk : Bool) (questionId : String)
    (answer : Option Answer) (comment : Option String) : Db × Bool :=
  if writeOk then
    ({ db with questions := db.questions.map (fun q =>
        if q.id = questionId then { q with answer := answer, comment := comment } else q) },
     true)
  else (db, false)

/-- Embedding of updateQuestion from the second AssessmentContext.tsx
    provider variant (lines 591-619): the local state is updated first,
    then updateQuestionInDb is awaited; a failed write only logs and
    toasts, leaving the already-mutated local state in place.  The Bool
    result records whether the persisted write succeeded. -/
def updateQuestion (st : ClientState) (db : Db) (writeOk : Bool) (questionId : String)
    (answer : Option Answer) (comment : Option String) (images : List String) :
    ClientState × Db × Bool :=
  match st.currentAssessment with
  | none => (st, db, false)
  | some currentA =>
    let updatedQuestions := currentA.questions.map (fun q =>
      if q.id = questionId then { q with answer := answer, comment := comment, images := images } else q)
    let st1 : ClientState :=
      { st with currentAssessment := some { currentA with questions := updatedQuestions } }
    let (db1, success) := updateQuestionInDb db writeOk questionId answer comment
    (st1, db1, success)

/-- Embedding of updateQuestion from the first AssessmentContext.tsx
    provider variant (lines 253-293): the database row is updated first
    (comment is null-ified when the string is empty), and the local state
    is mutated only after the write succeeded; a thrown write error is
    caught and only toasts. -/
def updateQuestionVariant1 (st : ClientState) (db : Db) (writeOk : Bool) (questionId : String)
    (answer : Option Answer) (comment : String) (images : List String) :
    ClientState × Db :=
  match st.currentAssessment with
  | none => (st, db)
  | some currentA =>
    if writeOk then
      let db1 := { db with questions := db.questions.map (fun q =>
        if q.id = questionId then
          { q with answer := answer,
                   comment := if comment = "" then none else some comment }
        else q) }
      let localQuestions := currentA.questions.map (fun q =>
        if q.id = questionId then
          { q with answer := answer, comment := some comment, images := images }
        else q)
      let st1 := { st with currentAssessment := some { currentA with questions := localQuestions } }
      (st1, db1)
    else (st, db)

/-- Embedding of markAssessmentComplete from
    src/features/assessment/api.ts (lines 313-332): update assessments
    set completed = true where id = assessmentId, with no check of the
    answers. -/
def markAssessmentComplete (db : Db) (writeOk : Bool) (assessmentId : String) :
    Db × Bool :=
  if writeOk then
    ({ db with assessments := db.assessments.map (fun a =>
        if a.id = assessmentId then { a with completed := true } else a) },
     true)
  else (db, false)

/-- Embedding of completeAssessment from the second AssessmentContext.tsx
    provider variant (lines 622-654): calls markAssessmentComplete and,
    on success, flips the completed flag on the current assessment and in
    the saved list. -/
def completeAssessment (st : ClientState) (db : Db) (writeOk : Bool) :
    ClientState × Db :=
  match st.currentAssessment with
  | none => (st, db)
  | some currentA =>
    let (db1, success) := markAssessmentComplete db writeOk currentA.id
    if success then
      ({ currentAssessment := some { currentA with completed := true },
         savedAssessments := st.savedAssessments.map (fun a =>
           if a.id = currentA.id then { a with completed := true } else a) },
       db1)
    else (st, db1)

/-- Outcome of the complete flow as observed by the user: the toast shown
    by handleComplete carries the unanswered count. -/
inductive CompleteOutcome where
  | noAssessment
  | questionsRemaining (count : Nat)
  | proceeded
deriving DecidableEq, Repr

/-- Embedding of handleComplete from src/unnamed/part_005 (lines
    112-125): counts the questions with null answer; when any remain it
    toasts the count and returns without touching any state; otherwise it
    awaits completeAssessment. -/
def handleComplete (st : ClientState) (db : Db) (writeOk : Bool) :
    ClientState × Db × CompleteOutcome :=
  match st.currentAssessment with
  | none => (st, db, CompleteOutcome.noAssessment)
  | some currentA =>
    let unansweredCount := (currentA.questions.filter (fun q => q.answer = none)).length
    if unansweredCount > 0 then
      (st, db, CompleteOutcome.questionsRemaining unansweredCount)
    else
      let (st1, db1) := completeAssessment st db writeOk
      (st1, db1, CompleteOutcome.proceeded)

/-- Embedding of DEFAULT_QUESTIONS from
    src/features/assessment/constants.ts (lines 26-47): the fixed
    template of (question_number, question_text) pairs. -/
def DEFAULT_QUESTIONS : List (Nat × String) := [
  (1, "Are all fire extinguishers properly maintained and accessible?"),
  (2, "Is the emergency evacuation plan clearly displayed?"),
  (3, "Are all emergency exits properly marked and unobstructed?"),
  (4, "Is proper PPE available and used where required?"),
  (5, "Are all hazardous materials properly labeled and stored?"),
  (6, "Is the first aid kit fully stocked and easily accessible?"),
  (7, "Are all electrical panels and equipment in good condition?"),
  (8, "Are all walkways and work areas free of slip, trip, and fall hazards?"),
  (9, "Is the lighting adequate in all work areas?"),
  (10, "Are all employees trained in safety procedures?"),
  (11, "Are safety data sheets (SDS) available for all chemicals?"),
  (12, "Is proper lifting technique being followed for manual handling?"),
  (13, "Are all tools and machinery properly maintained?"),
  (14, "Is there adequate ventilation in work areas?"),
  (15, "Are noise levels controlled where necessary?"),
  (16, "Are COVID-19 safety measures being followed?"),
  (17, "Are all safety signs visible and in good condition?"),
  (18, "Are regular safety meetings conducted?"),
  (19, "Is there a process for reporting safety concerns?"),
  (20, "Are safety inspections conducted regularly?")]

/-- Embedding of createAssessment from src/features/assessment/api.ts
    (lines 11-38): inserts one assessments row with completed = false.
    The id, date and created_at are produced server-side and enter as
    parameters; insertOk tells whether the insert succeeded. -/
def createAssessment (db : Db) (insertOk : Bool) (storeName userId : String)
    (newId date : String) (createdAt : Nat) : Db × Option AssessmentRow :=
  if insertOk then
    let row : AssessmentRow :=
      { id := newId, user_id := userId, store_name := storeName,
        date := date, completed := false, created_at := createdAt }
    ({ db with assessments := db.assessments ++ [row] }, some row)
  else (db, none)

/-- Embedding of createQuestionsForAssessment from
    src/features/assessment/api.ts (lines 41-92): batch-inserts one row
    per DEFAULT_QUESTIONS entry with answer = null and comment = null,
    then returns the formatted questions with an empty image list.
    Server-generated row ids enter through idGen, keyed by
    question_number. -/
def createQuestionsForAssessment (db : Db) (insertOk : Bool) (assessmentId : String)
    (idGen : Nat → String) : Db × Option (List QuestionWithImages) :=
  if insertOk then
    let rows : List QuestionRow := DEFAULT_QUESTIONS.map (fun q =>
      { id := idGen q.1, assessment_id := assessmentId, question_number := q.1,
        question_text := q.2, answer := none, comment := none })
    let formattedQuestions : List QuestionWithImages :=
      rows.map (fun r => { toQuestionRow := r, images := [] })
    ({ db with questions := db.questions ++ rows }, some formattedQuestions)
  else (db, none)

/-- Embedding of createNewAssessment from the second
    AssessmentContext.tsx provider variant (lines 480-530): creates the
    assessment row, then the question batch.  When the question batch
    fails after the assessment row was persisted, the source toasts a
    rollback message but performs none (its comment reads that rollback
    logic would go here), so the assessment row stays behind. -/
def createNewAssessment (st : ClientState) (db : Db) (ok1 ok2 : Bool)
    (storeName userId newId date : String) (createdAt : Nat) (idGen : Nat → String) :
    ClientState × Db × Bool :=
  let (db1, assessmentRes) := createAssessment db ok1 storeName userId newId date createdAt
  match assessmentRes with
  | none => (st, db1, false)
  | some assessment =>
    let (db2, questionsRes) := createQuestionsForAssessment db1 ok2 assessment.id idGen
    match questionsRes with
    | none => (st, db2, false)
    | some questions =>
      let newAssessment : AssessmentWithQuestions :=
        { toAssessmentRow := assessment, questions := questions }
      ({ currentAssessment := some newAssessment,
         savedAssessments := newAssessment :: st.savedAssessments },
       db2, true)

/-! Concrete inputs used to evaluate the operations above. -/

/-- Sample assessments-table row owned by user alice. -/
def exRowA1 : AssessmentRow :=
  { id := "a1", user_id := "alice", store_name := "Warehouse 4",
    date := "2024-01-01", completed := false, created_at := 5 }

/-- Sample question row belonging to assessment a1, unanswered. -/
def exQRow1 : QuestionRow :=
  { id := "q1", assessment_id := "a1", question_number := 1,
    question_text := "Are all fire extinguishers properly maintained and accessible?",
    answer := none, comment := none }

/-- Sample question row belonging to a different assessment a2. -/
def exQRow2 : QuestionRow :=
  { id := "q2", assessment_id := "a2", question_number := 1,
    question_text := "Is the emergency evacuation plan clearly displayed?",
    answer := none, comment := none }

/-- Sample hydrated unanswered question of assessment a1. -/
def exQuestionC1 : QuestionWithImages :=
  { toQuestionRow := exQRow1, images := [] }

/-- Sample hydrated assessment with a single unanswered question. -/
def exAssessmentC1 : AssessmentWithQuestions :=
  { toAssessmentRow := exRowA1, questions := [exQuestionC1] }

/-- Sample hydrated assessment following the end-to-end scenario of the
    spec: three questions answered yes, no and n/a. -/
def exScenario : AssessmentWithQuestions :=
  { toAssessmentRow := exRowA1,
    questions :=
      [{ id := "q1", assessment_id := "a1", question_number := 1,
         question_text := "Q1", answer := some Answer.yes, comment := none, images := [] },
       { id := "q2", assessment_id := "a1", question_number := 2,
         question_text := "Q2", answer := some Answer.no, comment := none, images := [] },
       { id := "q3", assessment_id := "a1", question_number := 3,
         question_text := "Q3", answer := some Answer.na, comment := none, images := [] }] }

/-- Empty client state. -/
def exStEmpty : ClientState := { currentAssessment := none, savedAssessments := [] }

/-- Empty database. -/
def exDbEmpty : Db := { assessments := [], questions := [], images := [] }

/-- Client state currently editing the one-unanswered-question
    assessment. -/
def exStC2 : ClientState :=
  { currentAssessment := some exAssessmentC1, savedAssessments := [] }

/-- Database holding assessment a1 of alice and its single question. -/
def exDbC2 : Db :=
  { assessments := [exRowA1], questions := [exQRow1], images := [] }

/-- Database holding assessment a1 of alice plus a question row q2 that
    belongs to a different assessment a2. -/
def exDbC5 : Db :=
  { assessments := [exRowA1], questions := [exQRow1, exQRow2], images := [] }

/-- Database with one assessment of alice and no question rows at all. -/
def exDbNoQuestions : Db :=
  { assessments := [exRowA1], questions := [], images := [] }

/-- Server-side id generator used in concrete create runs. -/
def exIdGen : Nat → String := fun n => "q" ++ toString n

/-- State of exDbC5 after the write that targets q2, a question of a
    different assessment than the one currently loaded. -/
def exDbC5After : Db :=
  { assessments := [exRowA1],
    questions := [exQRow1, { exQRow2 with answer := some Answer.yes }],
    images := [] }

/-- Question q1 with its answer optimistically set to yes. -/
def exQ1Yes : QuestionWithImages :=
  { toQuestionRow := { exQRow1 with answer := some Answer.yes }, images := [] }

/-- Assessment a1 after the optimistic local mutation of q1. -/
def exAssessmentC6 : AssessmentWithQuestions :=
  { toAssessmentRow := exRowA1, questions := [exQ1Yes] }

/-- Client state after the optimistic local mutation of q1 to yes. -/
def exStC6After : ClientState :=
  { currentAssessment := some exAssessmentC6, savedAssessments := [] }

/-! Helper lemmas shared by the claim theorems. -/

/-- Filtering with a weaker predicate keeps at least as many
    elements. -/
lemma length_filter_mono {α : Type} (p q : α → Bool) (l : List α)
    (h : ∀ x ∈ l, p x = true → q x = true) :
    (l.filter p).length ≤ (l.filter q).length := by
  induction l with
  | nil => simp
  | cons a l ih =>
    have ih1 := ih (fun x hx hp => h x (List.mem_cons_of_mem a hx) hp)
    by_cases hp : p a = true
    · rw [List.filter_cons_of_pos hp, List.filter_cons_of_pos (h a (List.mem_cons_self a l) hp)]
      simpa using ih1
    · rw [List.filter_cons_of_neg (by simpa using hp)]
      cases hq : q a
      · rw [List.filter_cons_of_neg (by simp [hq])]
        exact ih1
      · rw [List.filter_cons_of_pos hq]
        exact Nat.le_succ_of_le ih1

/-- Filter length splits over a predicate that is the disjoint union of
    two others. -/
lemma length_filter_add {α : Type} (p q r : α → Bool) (l : List α)
    (h : ∀ x ∈ l, (p x = true → (q x = true ∧ r x = false) ∨ (q x = false ∧ r x = true))
       ∧ (p x = false → q x = false ∧ r x = false)) :
    (l.filter p).length = (l.filter q).length + (l.filter r).length := by
  induction l with
  | nil => rfl
  | cons a l ih =>
    have ha := h a (List.mem_cons_self a l)
    have ih1 := ih (fun x hx => h x (List.mem_cons_of_mem a hx))
    cases hp : p a
    · have hqr := ha.2 hp
      rw [List.filter_cons_of_neg (by simp [hp]), List.filter_cons_of_neg (by simp [hqr.1]),
          List.filter_cons_of_neg (by simp [hqr.2]), ih1]
    · rcases ha.1 hp with ⟨hq, hr⟩ | ⟨hq, hr⟩
      · rw [List.filter_cons_of_pos hp, List.filter_cons_of_pos hq,
            List.filter_cons_of_neg (by simp [hr]), List.length_cons, List.length_cons, ih1]
        omega
      · rw [List.filter_cons_of_pos hp, List.filter_cons_of_neg (by simp [hq]),
            List.filter_cons_of_pos hr, List.length_cons, List.length_cons, ih1]
        omega

/-- Filter length is unchanged under a pointwise-equal predicate. -/
lemma length_filter_congr {α : Type} (p q : α → Bool) (l : List α)
    (h : ∀ x ∈ l, p x = q x) :
    (l.filter p).length = (l.filter q).length := by
  rw [List.filter_congr h]

/-- The count of answers that are not n/a splits into the yes-or-no
    count plus the unanswered count. -/
lemma length_filter_ne_na (qs : List QuestionWithImages) :
    (qs.filter (fun q => q.answer ≠ some Answer.na)).length
      = countYesNo qs + countUnanswered qs := by
  unfold countYesNo countUnanswered
  apply length_filter_add
  intro x _
  rcases x.answer with _ | a
  · decide
  · cases a <;> decide

/-- The count of answers that are neither n/a nor null is the yes-or-no
    count. -/
lemma length_filter_strict (qs : List QuestionWithImages) :
    (qs.filter (fun q => q.answer ≠ some Answer.na ∧ q.answer ≠ none)).length
      = countYesNo qs := by
  unfold countYesNo
  apply length_filter_congr
  intro x _
  rcases x.answer with _ | a
  · decide
  · cases a <;> decide

/-- C1 counterexample: on an assessment whose single question is
    unanswered, calculateAssessmentResults reports 1 applicable question
    while the number of Yes-or-No answers is 0, so an unanswered
    QuestionAnswer is counted as applicable. -/
theorem applicable_counts_unanswered_cex :
    (calculateAssessmentResults (some exAssessmentC1)).applicableQuestions = 1
    ∧ countYesNo exAssessmentC1.questions = 0 := by
  constructor <;> rfl

/-- C1 (amended): the provider-inline calculateResults counts applicable
    questions as exactly those answered Yes or No, while
    calculateAssessmentResults of utils.ts and the part_009
    calculateResults count every answer that is not n/a, which also
    counts unanswered questions as applicable. -/
theorem applicable_rule_per_variant (a : AssessmentWithQuestions) :
    (calculateResults (some a)).map AssessmentResult.applicableQuestions
      = some (countYesNo a.questions)
    ∧ (calculateAssessmentResults (some a)).applicableQuestions
      = countYesNo a.questions + countUnanswered a.questions
    ∧ (calculateResults_part009 (some a)).applicableQuestions
      = countYesNo a.questions + countUnanswered a.questions := by
  refine ⟨?_, ?_, ?_⟩
  · simp only [calculateResults, Option.map_some']
    rw [Option.some_inj]
    exact length_filter_strict a.questions
  · simp only [calculateAssessmentResults]
    exact length_filter_ne_na a.questions
  · simp only [calculateResults_part009]
    exact length_filter_ne_na a.questions

/-- Yes answers are a subset of the answers counted applicable by the
    utils.ts rule. -/
lemma yes_le_ne_na (qs : List QuestionWithImages) :
    (qs.filter (fun q => q.answer = some Answer.yes)).length
      ≤ (qs.filter (fun q => q.answer ≠ some Answer.na)).length := by
  apply length_filter_mono
  intro x _
  rcases x.answer with _ | a
  · decide
  · cases a <;> decide

/-- Yes answers are a subset of the answers counted applicable by the
    strict provider rule. -/
lemma yes_le_strict (qs : List QuestionWithImages) :
    (qs.filter (fun q => q.answer = some Answer.yes)).length
      ≤ (qs.filter (fun q => q.answer ≠ some Answer.na ∧ q.answer ≠ none)).length := by
  apply length_filter_mono
  intro x _
  rcases x.answer with _ | a
  · decide
  · cases a <;> decide

/-- The guarded percentage computation never exceeds 100 when the yes
    count is at most the applicable count. -/
lemma percentage_le_100 (y app : Nat) (hy : y ≤ app) :
    (if app > 0 then mathRound (y * 100) app else 0) ≤ 100 := by
  split
  · next h =>
    unfold mathRound
    have h2 : 0 < 2 * app := by omega
    have hlt : 2 * (y * 100) + app < 101 * (2 * app) := by omega
    have := (Nat.div_lt_iff_lt_mul h2).mpr hlt
    omega
  · omega

/-- The Nat-division embedding of Math.round coincides with the
    round-to-nearest-integer of the exact rational. -/
lemma mathRound_eq_round (y app : Nat) (happ : 0 < app) :
    (mathRound (y * 100) app : ℤ) = round ((y : ℚ) / (app : ℚ) * 100) := by
  have happQ : (app : ℚ) ≠ 0 := by
    exact_mod_cast Nat.pos_iff_ne_zero.mp happ
  rw [round_eq]
  have hx : (y : ℚ) / (app : ℚ) * 100 + 1 / 2
      = ((2 * (y * 100) + app : ℕ) : ℚ) / ((2 * app : ℕ) : ℚ) := by
    push_cast
    field_simp
    ring
  rw [hx, Rat.floor_natCast_div_natCast]
  simp [mathRound, Int.ofNat_div]

/-- C10: every calculator is a total function; on a missing assessment
    the utils.ts and part_009 calculators return the all-zero record and
    the provider-inline calculator returns null, and every returned
    record satisfies yesAnswers ≤ applicableQuestions ≤ totalQuestions
    and percentage ≤ 100. -/
theorem calculate_total_and_bounded (oa : Option AssessmentWithQuestions)
    (a1 : AssessmentWithQuestions) (r1 : AssessmentResult)
    (h1 : calculateResults (some a1) = some r1) :
    (calculateAssessmentResults oa).yesAnswers ≤ (calculateAssessmentResults oa).applicableQuestions
    ∧ (calculateAssessmentResults oa).applicableQuestions ≤ (calculateAssessmentResults oa).totalQuestions
    ∧ (calculateAssessmentResults oa).percentage ≤ 100
    ∧ calculateAssessmentResults none
        = { totalQuestions := 0, applicableQuestions := 0, yesAnswers := 0, percentage := 0 }
    ∧ calculateResults none = none
    ∧ calculateResults_part009 oa = calculateAssessmentResults oa
    ∧ (r1.yesAnswers ≤ r1.applicableQuestions ∧ r1.applicableQuestions ≤ r1.totalQuestions
        ∧ r1.percentage ≤ 100) := by
  simp only [calculateResults, Option.some_inj] at h1
  refine ⟨?_, ?_, ?_, rfl, rfl, by cases oa <;> rfl, ?_⟩
  · cases oa with
    | none => simp [calculateAssessmentResults]
    | some a =>
      simp only [calculateAssessmentResults]
      exact yes_le_ne_na a.questions
  · cases oa with
    | none => simp [calculateAssessmentResults]
    | some a =>
      simp only [calculateAssessmentResults]
      exact List.length_filter_le _ _
  · cases oa with
    | none => simp [calculateAssessmentResults]
    | some a =>
      simp only [calculateAssessmentResults]
      exact percentage_le_100 _ _ (yes_le_ne_na a.questions)
  · rw [← h1]
    refine ⟨yes_le_strict a1.questions, List.length_filter_le _ _, ?_⟩
    exact percentage_le_100 _ _ (yes_le_strict a1.questions)

/-- Witness for C10 at a concrete assessment with one unanswered
    question: the provider-inline calculator returns the record with one
    total and zero applicable questions, and the bounds hold of it. -/
theorem calculate_total_and_bounded_witness :
    calculateResults (some exAssessmentC1)
      = some { totalQuestions := 1, applicableQuestions := 0, yesAnswers := 0, percentage := 0 }
    ∧ (calculateAssessmentResults (some exAssessmentC1)).percentage ≤ 100 :=
  ⟨by decide,
   (calculate_total_and_bounded (some exAssessmentC1) exAssessmentC1
      { totalQuestions := 1, applicableQuestions := 0, yesAnswers := 0, percentage := 0 }
      (by decide)).2.2.1⟩

/-- C7: the percentage returned by calculateAssessmentResults is 0 when
    no questions are applicable, and otherwise is the nearest integer to
    yesAnswers / applicableQuestions times 100. -/
theorem calculate_percentage_rounds (a : AssessmentWithQuestions) :
    ((calculateAssessmentResults (some a)).applicableQuestions = 0 →
        (calculateAssessmentResults (some a)).percentage = 0)
    ∧ (0 < (calculateAssessmentResults (some a)).applicableQuestions →
        ((calculateAssessmentResults (some a)).percentage : ℤ)
          = round (((calculateAssessmentResults (some a)).yesAnswers : ℚ)
              / ((calculateAssessmentResults (some a)).applicableQuestions : ℚ) * 100)) := by
  simp only [calculateAssessmentResults]
  constructor
  · intro h
    have hneg : ¬ ((a.questions.filter (fun q => q.answer ≠ some Answer.na)).length > 0) := by
      omega
    rw [if_neg hneg]
  · intro h
    rw [if_pos h]
    exact mathRound_eq_round _ _ h

/-- Witness for C7 on the spec scenario (yes, no, n/a): two applicable
    questions, one yes, and the percentage equals the rounded rational. -/
theorem calculate_percentage_rounds_witness :
    0 < (calculateAssessmentResults (some exScenario)).applicableQuestions
    ∧ ((calculateAssessmentResults (some exScenario)).percentage : ℤ)
        = round (((calculateAssessmentResults (some exScenario)).yesAnswers : ℚ)
            / ((calculateAssessmentResults (some exScenario)).applicableQuestions : ℚ) * 100) :=
  ⟨by decide, (calculate_percentage_rounds exScenario).2 (by decide)⟩

/-- C2: when the loaded assessment still has an unanswered question, the
    complete flow returns the questions-remaining outcome carrying the
    unanswered count and changes neither the client state nor the
    database; and any assessment row whose completed flag is newly true
    after the flow implies every question of the loaded assessment was
    answered. -/
theorem handleComplete_guard (st : ClientState) (db : Db) (writeOk : Bool)
    (cur : AssessmentWithQuestions) (hcur : st.currentAssessment = some cur) :
    ((∃ q ∈ cur.questions, q.answer = none) →
        handleComplete st db writeOk
          = (st, db, CompleteOutcome.questionsRemaining (countUnanswered cur.questions))
        ∧ 0 < countUnanswered cur.questions)
    ∧ (∀ r ∈ (handleComplete st db writeOk).2.1.assessments,
        r.completed = true → r ∈ db.assessments ∨ ∀ q ∈ cur.questions, q.answer ≠ none) := by
  constructor
  · intro hex
    obtain ⟨q, hq, hans⟩ := hex
    have hmem : q ∈ cur.questions.filter (fun q => q.answer = none) :=
      List.mem_filter.mpr ⟨hq, by simp [hans]⟩
    have hpos : 0 < (cur.questions.filter (fun q => q.answer = none)).length :=
      List.length_pos_iff_ne_nil.mpr (List.ne_nil_of_mem hmem)
    refine ⟨?_, hpos⟩
    simp only [handleComplete, hcur]
    rw [if_pos hpos]
    rfl
  · intro r hr hcomp
    by_cases hzero : (cur.questions.filter (fun q => q.answer = none)).length = 0
    · right
      intro q hq hans
      have hmem : q ∈ cur.questions.filter (fun q => q.answer = none) :=
        List.mem_filter.mpr ⟨hq, by simp [hans]⟩
      rw [List.length_eq_zero] at hzero
      rw [hzero] at hmem
      cases hmem
    · left
      have hres : (handleComplete st db writeOk).2.1 = db := by
        simp only [handleComplete, hcur]
        rw [if_pos (Nat.pos_of_ne_zero hzero)]
      rw [hres] at hr
      exact hr

/-- Witness for C2: on the loaded one-unanswered-question assessment the
    flow reports one question remaining and leaves both states
    untouched. -/
theorem handleComplete_guard_witness :
    handleComplete exStC2 exDbC2 true
      = (exStC2, exDbC2, CompleteOutcome.questionsRemaining (countUnanswered exAssessmentC1.questions))
    ∧ 0 < countUnanswered exAssessmentC1.questions :=
  (handleComplete_guard exStC2 exDbC2 true exAssessmentC1 rfl).1
    ⟨exQuestionC1, by decide, rfl⟩

/-- C3 counterexample: loading the assessment owned by alice returns the
    full assessment rather than a not-accessible error, although the
    load operation receives no requester identity at all, so the same
    data is handed to any requesting user, such as bob. -/
theorem load_discloses_cex :
    (loadAssessmentById exDbC2 "a1").map (fun a => a.user_id) = some "alice"
    ∧ loadAssessmentById exDbC2 "a1" ≠ none := by
  constructor <;> decide

/-- C3 (amended): loadAssessmentById takes no requesting-user identity
    and applies no ownership check; whenever the id matches exactly one
    assessments row it returns that assessment hydrated with its
    questions and images, whoever its owner is. -/
theorem loadAssessmentById_ignores_owner (db : Db) (assessmentId : String)
    (row : AssessmentRow)
    (h : db.assessments.filter (fun a => a.id = assessmentId) = [row]) :
    loadAssessmentById db assessmentId
      = some { toAssessmentRow := row,
               questions := (db.questionsOf assessmentId).map (hydrateQuestion db) } := by
  simp only [loadAssessmentById, h, selectSingle]

/-- Witness for C3: the concrete alice-owned database load returns the
    hydrated row. -/
theorem loadAssessmentById_ignores_owner_witness :
    loadAssessmentById exDbC2 "a1"
      = some { toAssessmentRow := exRowA1,
               questions := (exDbC2.questionsOf "a1").map (hydrateQuestion exDbC2) } :=
  loadAssessmentById_ignores_owner exDbC2 "a1" exRowA1 (by decide)

/-- C4: when the assessment insert succeeds and the question batch
    insert fails, createNewAssessment reports failure yet leaves the
    assessment row persisted with zero question rows: the toasted
    rollback never happens. -/
theorem createNewAssessment_partial_failure_bug :
    createNewAssessment exStEmpty exDbEmpty true false
        "Warehouse 4" "alice" "a1" "2024-01-01" 5 exIdGen
      = (exStEmpty, exDbNoQuestions, false)
    ∧ exRowA1 ∈ exDbNoQuestions.assessments
    ∧ exDbNoQuestions.questionsOf "a1" = [] := by
  refine ⟨?_, ?_, ?_⟩ <;> decide

/-- C5 counterexample: updating q2, which belongs to assessment a2 while
    a1 is loaded, is not rejected: the call reports success and the
    persistent q2 row is mutated. -/
theorem updateQuestion_mismatch_cex :
    updateQuestion exStC2 exDbC5 true "q2" (some Answer.yes) none []
      = (exStC2, exDbC5After, true)
    ∧ exDbC5After ≠ exDbC5 := by
  constructor <;> decide

/-- Mapping the single-question update over a list that does not contain
    the target id changes nothing. -/
lemma map_update_id {l : List QuestionWithImages} {qid : String}
    {ans : Option Answer} {comment : Option String} {imgs : List String}
    (h : ∀ q ∈ l, q.id ≠ qid) :
    l.map (fun q =>
        if q.id = qid then { q with answer := ans, comment := comment, images := imgs } else q)
      = l := by
  induction l with
  | nil => rfl
  | cons a l ih =>
    rw [List.map_cons, if_neg (h a (List.mem_cons_self a l)),
        ih (fun q hq => h q (List.mem_cons_of_mem a hq))]

/-- C5 (amended): updateQuestion performs no assessment/question
    cross-check: for a questionId absent from the loaded assessment the
    call still reports success, the persistent write is applied to
    whatever row carries that id, and the in-memory aggregate stays
    unchanged only because the map finds no matching question. -/
theorem updateQuestion_no_crosscheck (st : ClientState) (db : Db) (qid : String)
    (ans : Option Answer) (comment : Option String) (imgs : List String)
    (cur : AssessmentWithQuestions)
    (hcur : st.currentAssessment = some cur)
    (hmiss : ∀ q ∈ cur.questions, q.id ≠ qid) :
    (updateQuestion st db true qid ans comment imgs).1 = st
    ∧ (updateQuestion st db true qid ans comment imgs).2.1
        = { db with questions := db.questions.map (fun q =>
              if q.id = qid then { q with answer := ans, comment := comment } else q) }
    ∧ (updateQuestion st db true qid ans comment imgs).2.2 = true := by
  obtain ⟨ocur, saved⟩ := st
  simp only [ClientState.mk.injEq] at hcur ⊢
  cases ocur with
  | none => cases hcur
  | some c2 =>
    simp only [Option.some_inj] at hcur
    cases hcur
    have hmap : cur.questions.map (fun q =>
        if q.id = qid then { q with answer := ans, comment := comment, images := imgs } else q)
        = cur.questions := map_update_id hmiss
    refine ⟨?_, rfl, rfl⟩
    exact congrArg (fun l => ({ currentAssessment := some { cur with questions := l }, savedAssessments := saved } : ClientState)) hmap

/-- Witness for C5 at the concrete mismatched pair. -/
theorem updateQuestion_no_crosscheck_witness :
    (updateQuestion exStC2 exDbC5 true "q2" (some Answer.yes) none []).1 = exStC2
    ∧ (updateQuestion exStC2 exDbC5 true "q2" (some Answer.yes) none []).2.1
        = { exDbC5 with questions := exDbC5.questions.map (fun q =>
              if q.id = "q2" then { q with answer := some Answer.yes, comment := none } else q) }
    ∧ (updateQuestion exStC2 exDbC5 true "q2" (some Answer.yes) none []).2.2 = true :=
  updateQuestion_no_crosscheck exStC2 exDbC5 "q2" (some Answer.yes) none []
    exAssessmentC1 rfl (by decide)

/-- C6 counterexample: with a failing persistent write, updateQuestion
    still mutates the in-memory aggregate, presenting the answer as
    saved although the database is unchanged. -/
theorem updateQuestion_optimistic_cex :
    updateQuestion exStC2 exDbC2 false "q1" (some Answer.yes) none []
      = (exStC6After, exDbC2, false)
    ∧ exStC6After ≠ exStC2 := by
  constructor <;> decide

/-- C6 (amended): the first provider variant applies the in-memory
    mutation only after the write succeeds, so a failed write leaves
    both states unchanged; the second provider variant mutates the
    in-memory aggregate before the write, so a failed write leaves the
    unsaved answer in the aggregate while the database is unchanged. -/
theorem updateQuestion_failure_behavior (st : ClientState) (db : Db) (qid : String)
    (ans : Option Answer) (c : String) (oc : Option String) (imgs : List String) :
    updateQuestionVariant1 st db false qid ans c imgs = (st, db)
    ∧ (updateQuestion st db false qid ans oc imgs).2.1 = db
    ∧ ∀ cur, st.currentAssessment = some cur →
        (updateQuestion st db false qid ans oc imgs).1
          = { st with currentAssessment := some { cur with
                questions := cur.questions.map (fun q =>
                  if q.id = qid then { q with answer := ans, comment := oc, images := imgs }
                  else q) } } := by
  obtain ⟨ocur, saved⟩ := st
  refine ⟨?_, ?_, ?_⟩
  · cases ocur <;> rfl
  · cases ocur <;> rfl
  · intro cur hcur
    cases ocur with
    | none => cases hcur
    | some c2 =>
      simp only [Option.some_inj] at hcur
      cases hcur
      rfl

/-- Witness for C6: at the concrete inputs a failed write leaves the
    legacy variant untouched while the optimistic variant presents the
    mutated aggregate. -/
theorem updateQuestion_failure_behavior_witness :
    updateQuestionVariant1 exStC2 exDbC2 false "q1" (some Answer.yes) "note" []
      = (exStC2, exDbC2)
    ∧ (updateQuestion exStC2 exDbC2 false "q1" (some Answer.yes) none []).1
        = { exStC2 with currentAssessment := some { exAssessmentC1 with
              questions := exAssessmentC1.questions.map (fun q =>
                if q.id = "q1" then { q with answer := some Answer.yes, comment := none, images := [] }
                else q) } } :=
  ⟨(updateQuestion_failure_behavior exStC2 exDbC2 "q1" (some Answer.yes) "note" none []).1,
   (updateQuestion_failure_behavior exStC2 exDbC2 "q1" (some Answer.yes) "note" none []).2.2
     exAssessmentC1 rfl⟩

/-- C8: with both inserts succeeding, createNewAssessment yields a
    current assessment for the given owner and label, not completed,
    holding exactly one question per template entry whose ordinals are
    the contiguous sequence 1..N in template order, all unanswered with
    null comment and empty image list. -/
theorem createNewAssessment_template (st : ClientState) (db : Db)
    (storeName userId newId date : String) (createdAt : Nat) (idGen : Nat → String)
    (hname : storeName ≠ "") :
    ∃ a : AssessmentWithQuestions,
      (createNewAssessment st db true true storeName userId newId date createdAt idGen).1.currentAssessment
        = some a
      ∧ a.store_name = storeName ∧ a.user_id = userId ∧ a.completed = false
      ∧ a.questions.length = DEFAULT_QUESTIONS.length
      ∧ a.questions.map (fun q => q.question_number) = List.range' 1 DEFAULT_QUESTIONS.length
      ∧ ∀ q ∈ a.questions,
          q.assessment_id = newId ∧ q.answer = none ∧ q.comment = none ∧ q.images = [] := by
  refine ⟨{ toAssessmentRow := { id := newId, user_id := userId, store_name := storeName, date := date, completed := false, created_at := createdAt }, questions := DEFAULT_QUESTIONS.map (fun p => ({ toQuestionRow := { id := idGen p.1, assessment_id := newId, question_number := p.1, question_text := p.2, answer := none, comment := none }, images := [] } : QuestionWithImages)) }, ?_, rfl, rfl, rfl, ?_, ?_, ?_⟩
  · simp only [createNewAssessment, createAssessment, createQuestionsForAssessment,
      reduceIte, List.map_map, Function.comp]
    rfl
  · simp [List.length_map]
  · simp only [List.map_map]
    rfl
  · intro q hq
    obtain ⟨p, hp, rfl⟩ := List.mem_map.mp hq
    exact ⟨rfl, rfl, rfl, rfl⟩

/-- Witness for C8 at concrete create inputs. -/
theorem createNewAssessment_template_witness :
    ∃ a : AssessmentWithQuestions,
      (createNewAssessment exStEmpty exDbEmpty true true "Warehouse 4" "alice" "a1" "2024-01-01" 5 exIdGen).1.currentAssessment
        = some a
      ∧ a.store_name = "Warehouse 4" ∧ a.user_id = "alice" ∧ a.completed = false
      ∧ a.questions.length = DEFAULT_QUESTIONS.length
      ∧ a.questions.map (fun q => q.question_number) = List.range' 1 DEFAULT_QUESTIONS.length
      ∧ ∀ q ∈ a.questions,
          q.assessment_id = "a1" ∧ q.answer = none ∧ q.comment = none ∧ q.images = [] :=
  createNewAssessment_template exStEmpty exDbEmpty "Warehouse 4" "alice" "a1" "2024-01-01" 5
    exIdGen (by decide)

/-- Inverting the loop body of the list fetch: a produced assessment is
    the hydration of its row, and its question list was non-empty. -/
lemma fetchHydrate_eq_some {db : Db} {x : AssessmentRow} {c : AssessmentWithQuestions}
    (h : fetchHydrate db x = some c) :
    c = { toAssessmentRow := x, questions := (db.questionsOf x.id).map (hydrateQuestion db) }
    ∧ db.questionsOf x.id ≠ [] := by
  simp only [fetchHydrate] at h
  by_cases hemp : (db.questionsOf x.id).isEmpty = true
  · rw [if_pos hemp] at h
    cases h
  · rw [if_neg hemp] at h
    refine ⟨(Option.some_inj.mp h).symm, ?_⟩
    intro hnil
    exact hemp (by simp [hnil])

/-- The loop body hydrates any row whose question list is non-empty. -/
lemma fetchHydrate_of_nonempty {db : Db} {x : AssessmentRow}
    (h : db.questionsOf x.id ≠ []) :
    fetchHydrate db x
      = some { toAssessmentRow := x,
               questions := (db.questionsOf x.id).map (hydrateQuestion db) } := by
  simp only [fetchHydrate]
  rw [if_neg (by simp [h])]

/-- C9 counterexample: an assessment of alice that has zero question
    rows is omitted from the list returned for alice. -/
theorem fetch_omits_empty_cex :
    fetchAssessmentsForUser exDbNoQuestions "alice" = []
    ∧ exRowA1 ∈ exDbNoQuestions.assessments
    ∧ exRowA1.user_id = "alice" := by
  refine ⟨?_, ?_, ?_⟩ <;> decide

/-- C9 (amended): the list returned for an owner contains only that
    owner's stored assessments, each hydrated with its questions and
    images, ordered most-recent-first by creation date; an owned
    assessment appears exactly when it has at least one question row, so
    question-less assessments are omitted. -/
theorem fetchAssessmentsForUser_spec (db : Db) (userId : String) :
    (∀ a ∈ fetchAssessmentsForUser db userId,
        a.user_id = userId
        ∧ a.toAssessmentRow ∈ db.assessments
        ∧ a.questions = (db.questionsOf a.id).map (hydrateQuestion db)
        ∧ a.questions ≠ [])
    ∧ (fetchAssessmentsForUser db userId).Pairwise
        (fun x y => y.created_at ≤ x.created_at)
    ∧ (∀ r ∈ db.assessments, r.user_id = userId → db.questionsOf r.id ≠ [] →
        ∃ a ∈ fetchAssessmentsForUser db userId, a.toAssessmentRow = r) := by
  refine ⟨?_, ?_, ?_⟩
  · intro a ha
    simp only [fetchAssessmentsForUser] at ha
    obtain ⟨x, hx, hfx⟩ := List.mem_filterMap.mp ha
    obtain ⟨rfl, hne⟩ := fetchHydrate_eq_some hfx
    simp only [orderByCreatedDesc] at hx
    have hx2 : x ∈ db.assessments.filter (fun a => a.user_id = userId) :=
      (List.mem_insertionSort byRecentFirst).mp hx
    obtain ⟨hxmem, hxuser⟩ := List.mem_filter.mp hx2
    refine ⟨of_decide_eq_true hxuser, hxmem, rfl, ?_⟩
    intro hnil
    exact hne (List.map_eq_nil_iff.mp hnil)
  · simp only [fetchAssessmentsForUser, orderByCreatedDesc]
    refine List.Pairwise.filterMap (fetchHydrate db) ?_
      (List.sorted_insertionSort byRecentFirst _)
    intro b b2 hR c hc c2 hc2
    obtain ⟨rfl, _⟩ := fetchHydrate_eq_some (Option.mem_def.mp hc)
    obtain ⟨rfl, _⟩ := fetchHydrate_eq_some (Option.mem_def.mp hc2)
    exact hR
  · intro r hr huser hq
    refine ⟨{ toAssessmentRow := r, questions := (db.questionsOf r.id).map (hydrateQuestion db) }, ?_, rfl⟩
    simp only [fetchAssessmentsForUser, orderByCreatedDesc]
    refine List.mem_filterMap.mpr ⟨r, ?_, fetchHydrate_of_nonempty hq⟩
    exact (List.mem_insertionSort byRecentFirst).mpr (List.mem_filter.mpr ⟨hr, by simp [huser]⟩)

/-- Witness for C9: the alice-owned assessment with one question row is
    present in the returned list. -/
theorem fetchAssessmentsForUser_spec_witness :
    ∃ a ∈ fetchAssessmentsForUser exDbC2 "alice", a.toAssessmentRow = exRowA1 :=
  (fetchAssessmentsForUser_spec exDbC2 "alice").2.2 exRowA1 (by decide) (by decide) (by decide)

end Scorecard
